import Mathlib

/-!
Verification of the organic-growth-patterns repository.

The embedding models the two engines:
* `OrganicPatternGenerator` (src/organic-patterns.py): 2D grids, rules
  coral / lichen / mycelium, `grow`, `seed_random`, `add_environment`.
* `OrganicPattern3D` (src/organic-patterns-3d.py): 3D grids, rules
  coral / mycelium / crystal, `_create_3d_kernel`, `grow` with a
  generation count and a history list, `seed_random`.

Grids are total functions from coordinates to rational cell values
(only indices below the extents matter); kernels are functions from
integer offsets (the 3x3 or 3x3x3 array is indexed relative to its
center).  All the kernels in the source are symmetric under negation of
the offsets, so scipy's `convolve` coincides with correlation, which is
the form written here.  Random sources (numpy uniform draws) are passed
in explicitly as functions.
-/

/-- A 2D grid: row index, column index, cell value. -/
abbrev Grid2 := ℕ → ℕ → ℚ

/-- A 3D grid, indexed `z y x` like the source's `(depth, height, width)`. -/
abbrev Grid3 := ℕ → ℕ → ℕ → ℚ

/-- The relative offsets covered by a 3-wide kernel axis. -/
def offsets : List ℤ := [-1, 0, 1]

/-- Periodic index arithmetic: `mode='wrap'` convolution reads the grid at
the index reduced modulo the axis extent. -/
def wrapIdx (n : ℕ) (i : ℤ) : ℕ := (i % (n : ℤ)).toNat

/-- The 2D Moore kernel `[[1,1,1],[1,0,1],[1,1,1]]` of the coral and
mycelium rules, indexed by offsets from the center. -/
def mooreKernel (di dj : ℤ) : ℚ :=
  if di.natAbs ≤ 1 ∧ dj.natAbs ≤ 1 then (if di = 0 ∧ dj = 0 then 0 else 1) else 0

/-- The 2D von Neumann kernel `[[0,1,0],[1,0,1],[0,1,0]]` of the lichen
rule. -/
def vonNeumannKernel (di dj : ℤ) : ℚ :=
  if (di.natAbs = 1 ∧ dj = 0) ∨ (di = 0 ∧ dj.natAbs = 1) then 1 else 0

/-- A 2D pattern rule: kernel and inclusive survive / birth ranges
(the color map is for rendering only and is not modelled). -/
structure Rule2 where
  kernel : ℤ → ℤ → ℚ
  survive_low : ℚ
  survive_high : ℚ
  birth_low : ℚ
  birth_high : ℚ

/-- The names of the 2D rules in `OrganicPatternGenerator.patterns`. -/
inductive PatternType2
  | coral
  | lichen
  | mycelium
deriving DecidableEq

/-- The 2D rule table from `OrganicPatternGenerator.__init__`. -/
def patterns2 : PatternType2 → Rule2
  | PatternType2.coral => ⟨mooreKernel, 2, 3, 3, 3⟩
  | PatternType2.lichen => ⟨vonNeumannKernel, 1, 3, 2, 3⟩
  | PatternType2.mycelium => ⟨mooreKernel, 2, 4, 2, 3⟩

/-- `convolve(grid, kernel, mode='wrap')` at one output cell of an
`h × w` grid: the kernel-weighted sum of the periodic neighborhood. -/
def neighborField2 (K : ℤ → ℤ → ℚ) (h w : ℕ) (g : Grid2) (i j : ℕ) : ℚ :=
  (offsets.map (fun di =>
    (offsets.map (fun dj =>
      K di dj * g (wrapIdx h ((i : ℤ) + di)) (wrapIdx w ((j : ℤ) + dj)))).sum)).sum

/-- One synchronous generation step of `OrganicPatternGenerator.grow`
before the rule-specific noise: `next_grid` starts at zero and is set to 1
exactly on `survival_mask | birth_mask`, both masks computed from the
current grid's neighbor field. -/
def step2 (r : Rule2) (h w : ℕ) (g : Grid2) : Grid2 := fun i j =>
  if (0 < g i j ∧ r.survive_low ≤ neighborField2 r.kernel h w g i j
        ∧ neighborField2 r.kernel h w g i j ≤ r.survive_high)
      ∨ (g i j = 0 ∧ r.birth_low ≤ neighborField2 r.kernel h w g i j
        ∧ neighborField2 r.kernel h w g i j ≤ r.birth_high)
  then 1 else 0

/-- `np.clip(x, lo, hi)`. -/
def npClip (x lo hi : ℚ) : ℚ := min (max x lo) hi

/-- One call of `OrganicPatternGenerator.grow`: the synchronous step, and
for the mycelium rule only, addition of per-cell noise
`u i j * 0.1` (with `u` the raw uniform field of `np.random.random`)
followed by clipping into `[0, 1]`. -/
def grow2 (pt : PatternType2) (h w : ℕ) (u : ℕ → ℕ → ℚ) (g : Grid2) : Grid2 :=
  let next := step2 (patterns2 pt) h w g
  if pt = PatternType2.mycelium then
    fun i j => npClip (next i j + u i j * (1 / 10)) 0 1
  else next

/-- The trace of repeated 2D `grow` calls: `u n` is the noise field drawn
at generation `n`. -/
def growTrace2 (pt : PatternType2) (h w : ℕ) (u : ℕ → ℕ → ℕ → ℚ) (g : Grid2) :
    ℕ → Grid2
  | 0 => g
  | n + 1 => grow2 pt h w (u n) (growTrace2 pt h w u g n)

/-- `np.sum(self.grid > 0)`: the active-cell count over an `h × w` grid. -/
def activeCells (h w : ℕ) (g : Grid2) : ℕ :=
  ((Finset.range h ×ˢ Finset.range w).filter (fun p => 0 < g p.1 p.2)).card

/-- The kernel shape names accepted by `OrganicPattern3D._create_3d_kernel`. -/
inductive Shape3
  | sphere
  | diamond
  | cube
deriving DecidableEq

/-- The unnormalized 3x3x3 kernel filled by `_create_3d_kernel` before the
final division, indexed by offsets `dz dy dx` from the center cell.  The
sphere and diamond branches both set exactly the six face-adjacent
entries; the cube branch fills everything except the center. -/
def rawKernel3 : Shape3 → ℤ → ℤ → ℤ → ℚ
  | Shape3.sphere => fun dz dy dx =>
      if (dz = 0 ∧ dy = 0 ∧ dx.natAbs = 1) ∨ (dz = 0 ∧ dy.natAbs = 1 ∧ dx = 0)
          ∨ (dz.natAbs = 1 ∧ dy = 0 ∧ dx = 0) then 1 else 0
  | Shape3.diamond => fun dz dy dx =>
      if (dz = 0 ∧ dy = 0 ∧ dx.natAbs = 1) ∨ (dz = 0 ∧ dy.natAbs = 1 ∧ dx = 0)
          ∨ (dz.natAbs = 1 ∧ dy = 0 ∧ dx = 0) then 1 else 0
  | Shape3.cube => fun dz dy dx =>
      if dz.natAbs ≤ 1 ∧ dy.natAbs ≤ 1 ∧ dx.natAbs ≤ 1
          ∧ ¬(dz = 0 ∧ dy = 0 ∧ dx = 0) then 1 else 0

/-- `np.sum(kernel)` over the 3x3x3 entries. -/
def kernelSum3 (K : ℤ → ℤ → ℤ → ℚ) : ℚ :=
  (offsets.map (fun dz =>
    (offsets.map (fun dy =>
      (offsets.map (fun dx => K dz dy dx)).sum)).sum)).sum

/-- Sum of the nine entries of a 2D kernel (for comparison with the
normalization the spec claims). -/
def kernelSum2 (K : ℤ → ℤ → ℚ) : ℚ :=
  (offsets.map (fun di => (offsets.map (fun dj => K di dj)).sum)).sum

/-- `OrganicPattern3D._create_3d_kernel`: the raw kernel divided by its
sum (`return kernel / np.sum(kernel)`). -/
def create3dKernel (s : Shape3) : ℤ → ℤ → ℤ → ℚ :=
  fun dz dy dx => rawKernel3 s dz dy dx / kernelSum3 (rawKernel3 s)

/-- A 3D pattern rule (the color list is rendering-only and not
modelled). -/
structure Rule3 where
  kernel : ℤ → ℤ → ℤ → ℚ
  survive_low : ℚ
  survive_high : ℚ
  birth_low : ℚ
  birth_high : ℚ

/-- The names of the 3D rules in `OrganicPattern3D.patterns`. -/
inductive PatternType3
  | coral
  | mycelium
  | crystal
deriving DecidableEq

/-- The 3D rule table from `OrganicPattern3D.__init__`. -/
def patterns3 : PatternType3 → Rule3
  | PatternType3.coral => ⟨create3dKernel Shape3.sphere, 4, 6, 4, 5⟩
  | PatternType3.mycelium => ⟨create3dKernel Shape3.diamond, 3, 6, 3, 4⟩
  | PatternType3.crystal => ⟨create3dKernel Shape3.cube, 4, 7, 5, 6⟩

/-- `convolve(grid, kernel, mode='wrap')` at one cell of a `d × h × w`
3D grid. -/
def neighborField3 (K : ℤ → ℤ → ℤ → ℚ) (d h w : ℕ) (g : Grid3) (z y x : ℕ) : ℚ :=
  (offsets.map (fun dz =>
    (offsets.map (fun dy =>
      (offsets.map (fun dx =>
        K dz dy dx * g (wrapIdx d ((z : ℤ) + dz)) (wrapIdx h ((y : ℤ) + dy))
          (wrapIdx w ((x : ℤ) + dx)))).sum)).sum)).sum

/-- One synchronous generation of the 3D update rule inside
`OrganicPattern3D.grow`: `next_grid` is zero except value 1 on
`survive_mask | birth_mask`; no rule applies any noise in 3D. -/
def step3 (r : Rule3) (d h w : ℕ) (g : Grid3) : Grid3 := fun z y x =>
  if (0 < g z y x ∧ r.survive_low ≤ neighborField3 r.kernel d h w g z y x
        ∧ neighborField3 r.kernel d h w g z y x ≤ r.survive_high)
      ∨ (g z y x = 0 ∧ r.birth_low ≤ neighborField3 r.kernel d h w g z y x
        ∧ neighborField3 r.kernel d h w g z y x ≤ r.birth_high)
  then 1 else 0

/-- The observable state of an `OrganicPattern3D` engine: the current grid
and the history list of snapshots. -/
structure State3 where
  grid : Grid3
  history : List Grid3

/-- The state right after `seed_random` / `seed_center`: the seeded grid
with `self.history = [self.grid.copy()]`. -/
def seedState3 (g : Grid3) : State3 := ⟨g, [g]⟩

/-- One iteration of the loop body of `OrganicPattern3D.grow`: replace the
grid by the stepped grid and append a copy to the history. -/
def growOnce3 (pt : PatternType3) (d h w : ℕ) (st : State3) : State3 :=
  ⟨step3 (patterns3 pt) d h w st.grid,
   st.history ++ [step3 (patterns3 pt) d h w st.grid]⟩

/-- `OrganicPattern3D.grow(pattern_type, generations)`: the loop body run
`generations` times. -/
def grow3 (pt : PatternType3) (d h w : ℕ) (generations : ℕ) (st : State3) : State3 :=
  (growOnce3 pt d h w)^[generations] st

/-- The supported arguments of `OrganicPatternGenerator.add_environment`. -/
inductive EnvFactor
  | moisture
  | light
deriving DecidableEq

/-- `np.linspace(a, b, n)` at index `i` (for `n = 1` numpy returns the
single start value). -/
def linspace (a b : ℚ) (n : ℕ) (i : ℕ) : ℚ :=
  if n = 1 then a else a + (b - a) * (i : ℚ) / ((n : ℚ) - 1)

/-- The moisture gradient `np.linspace(0.5, 1, height)`, tiled across the
columns (so it depends only on the row index). -/
def moistureGradient (h : ℕ) (i : ℕ) : ℚ := linspace (1 / 2) 1 h i

/-- The light gradient: `1 - 0.5 * (x*x + y*y) / (width * height / 4)`
with `x = j - width // 2`, `y = i - height // 2`, clipped into
`[0.3, 1]`. -/
def lightGradient (h w : ℕ) (i j : ℕ) : ℚ :=
  npClip (1 - (1 / 2) * (((j : ℚ) - (w / 2 : ℕ)) * ((j : ℚ) - (w / 2 : ℕ))
      + ((i : ℚ) - (h / 2 : ℕ)) * ((i : ℚ) - (h / 2 : ℕ)))
    / ((w : ℚ) * (h : ℚ) / 4)) (3 / 10) 1

/-- The multiplicative environment field: a function of the grid shape and
the factor kind only. -/
def envGradient (factor : EnvFactor) (h w : ℕ) (i j : ℕ) : ℚ :=
  match factor with
  | EnvFactor.moisture => moistureGradient h i
  | EnvFactor.light => lightGradient h w i j

/-- `OrganicPatternGenerator.add_environment`: `self.grid *= gradient`. -/
def add_environment (factor : EnvFactor) (h w : ℕ) (g : Grid2) : Grid2 :=
  fun i j => g i j * envGradient factor h w i j

/-- The error raised at the point of a call with a parameter outside its
domain (numpy raises a `ValueError` for a negative probability entry; the
spec's taxonomy calls it `InvalidParameter`). -/
inductive EngineError
  | InvalidParameter
deriving DecidableEq

/-- `OrganicPatternGenerator.seed_random(density)`:
`np.random.choice([0.0, 1.0], size, p=[1-density, density])`.  numpy
validates that every entry of `p` is non-negative (its sum check always
passes here since `(1-density) + density = 1` exactly) and then draws each
cell independently: value 0 when the uniform draw falls below
`1 - density`, else 1.  `u` is the per-cell uniform source. -/
def seed_random2 (density : ℚ) (u : ℕ → ℕ → ℚ) : Except EngineError Grid2 :=
  if 0 ≤ 1 - density ∧ 0 ≤ density then
    Except.ok (fun i j => if u i j < 1 - density then 0 else 1)
  else Except.error EngineError.InvalidParameter

/-- `OrganicPattern3D.seed_random(density)`: the same draw over a 3D
shape, `np.random.choice([0, 1], size, p=[1-density, density])`. -/
def seed_random3 (density : ℚ) (u : ℕ → ℕ → ℕ → ℚ) : Except EngineError Grid3 :=
  if 0 ≤ 1 - density ∧ 0 ≤ density then
    Except.ok (fun z y x => if u z y x < 1 - density then 0 else 1)
  else Except.error EngineError.InvalidParameter

/-- Replacing one cell of a grid by 0; used to state what a single cell
contributes to a neighbor field. -/
def clearCell (g : Grid2) (a b : ℕ) : Grid2 :=
  fun x y => if x = a ∧ y = b then 0 else g x y

/-- Replacing one cell of a 3D grid by 0. -/
def clearCell3 (g : Grid3) (a b c : ℕ) : Grid3 :=
  fun z y x => if z = a ∧ y = b ∧ x = c then 0 else g z y x

lemma ite_one_zero_char (c : Prop) [Decidable c] :
    ((if c then (1 : ℚ) else 0) = 1 ↔ c) ∧ ((if c then (1 : ℚ) else 0) = 0 ↔ ¬c) := by
  by_cases hc : c <;> simp [hc]

lemma grow2_coral (h w : ℕ) (u : ℕ → ℕ → ℚ) (g : Grid2) :
    grow2 PatternType2.coral h w u g = step2 (patterns2 PatternType2.coral) h w g := rfl

lemma grow2_lichen (h w : ℕ) (u : ℕ → ℕ → ℚ) (g : Grid2) :
    grow2 PatternType2.lichen h w u g = step2 (patterns2 PatternType2.lichen) h w g := rfl

lemma growOnce3_iterate (pt : PatternType3) (d h w : ℕ) (g : Grid3) (N : ℕ) :
    ((growOnce3 pt d h w)^[N] (seedState3 g)).grid = (step3 (patterns3 pt) d h w)^[N] g
    ∧ ((growOnce3 pt d h w)^[N] (seedState3 g)).history
      = (List.range (N + 1)).map (fun k => (step3 (patterns3 pt) d h w)^[k] g) := by
  induction N with
  | zero => exact ⟨rfl, by simp [seedState3]⟩
  | succ n ih =>
    rw [Function.iterate_succ_apply']
    refine ⟨?_, ?_⟩
    · show step3 (patterns3 pt) d h w (((growOnce3 pt d h w)^[n] (seedState3 g)).grid) = _
      rw [ih.1, Function.iterate_succ_apply']
    · show ((growOnce3 pt d h w)^[n] (seedState3 g)).history ++ [_] = _
      rw [ih.1, ih.2,
        show List.range (n + 1 + 1) = List.range (n + 1) ++ [n + 1] from List.range_succ (n + 1),
        List.map_append, List.map_cons, List.map_nil, Function.iterate_succ_apply']

/-- C1: one generation step of `grow`, before any rule-specific noise, sets
a cell of the next grid to 1 exactly when (it is currently alive and its
neighbor field, computed by periodic convolution of the current grid with
the rule's kernel, lies in the inclusive survive range) or (it is
currently dead and the neighbor field lies in the inclusive birth range),
and to 0 everywhere else; every cell's neighbor field is computed from the
current generation's grid only (synchronous whole-grid update), for every
2D and 3D rule. -/
theorem c1_synchronous_masked_update :
    (∀ (pt : PatternType2) (h w : ℕ) (g : Grid2) (i j : ℕ),
      (step2 (patterns2 pt) h w g i j = 1 ↔
        (0 < g i j
          ∧ (patterns2 pt).survive_low ≤ neighborField2 (patterns2 pt).kernel h w g i j
          ∧ neighborField2 (patterns2 pt).kernel h w g i j ≤ (patterns2 pt).survive_high)
        ∨ (g i j = 0
          ∧ (patterns2 pt).birth_low ≤ neighborField2 (patterns2 pt).kernel h w g i j
          ∧ neighborField2 (patterns2 pt).kernel h w g i j ≤ (patterns2 pt).birth_high))
      ∧ (step2 (patterns2 pt) h w g i j = 0 ↔ ¬(
        (0 < g i j
          ∧ (patterns2 pt).survive_low ≤ neighborField2 (patterns2 pt).kernel h w g i j
          ∧ neighborField2 (patterns2 pt).kernel h w g i j ≤ (patterns2 pt).survive_high)
        ∨ (g i j = 0
          ∧ (patterns2 pt).birth_low ≤ neighborField2 (patterns2 pt).kernel h w g i j
          ∧ neighborField2 (patterns2 pt).kernel h w g i j ≤ (patterns2 pt).birth_high))))
    ∧ (∀ (pt : PatternType3) (d h w : ℕ) (g : Grid3) (z y x : ℕ),
      (step3 (patterns3 pt) d h w g z y x = 1 ↔
        (0 < g z y x
          ∧ (patterns3 pt).survive_low ≤ neighborField3 (patterns3 pt).kernel d h w g z y x
          ∧ neighborField3 (patterns3 pt).kernel d h w g z y x ≤ (patterns3 pt).survive_high)
        ∨ (g z y x = 0
          ∧ (patterns3 pt).birth_low ≤ neighborField3 (patterns3 pt).kernel d h w g z y x
          ∧ neighborField3 (patterns3 pt).kernel d h w g z y x ≤ (patterns3 pt).birth_high))
      ∧ (step3 (patterns3 pt) d h w g z y x = 0 ↔ ¬(
        (0 < g z y x
          ∧ (patterns3 pt).survive_low ≤ neighborField3 (patterns3 pt).kernel d h w g z y x
          ∧ neighborField3 (patterns3 pt).kernel d h w g z y x ≤ (patterns3 pt).survive_high)
        ∨ (g z y x = 0
          ∧ (patterns3 pt).birth_low ≤ neighborField3 (patterns3 pt).kernel d h w g z y x
          ∧ neighborField3 (patterns3 pt).kernel d h w g z y x ≤ (patterns3 pt).birth_high)))) :=
  ⟨fun _ _ _ _ _ _ => ite_one_zero_char _, fun _ _ _ _ _ _ _ _ => ite_one_zero_char _⟩

/-- C6: for every grid state and every rule, `grow` with `generations = 0`
is a no-op that returns successfully: the grid is unchanged and nothing is
appended to the history buffer (the generation count exists only on the 3D
engine's `grow`). -/
theorem c6_grow_zero_generations_noop (pt : PatternType3) (d h w : ℕ) (st : State3) :
    grow3 pt d h w 0 st = st ∧ (grow3 pt d h w 0 st).grid = st.grid
      ∧ (grow3 pt d h w 0 st).history.length = st.history.length :=
  ⟨rfl, rfl, rfl⟩

/-- C7: starting from a fresh seed (whose state stores the seeded grid as
generation 0), after `N` grow calls of one generation each the history
buffer holds exactly `N + 1` snapshots, and they are exactly the
successive generations in order. -/
theorem c7_history_length_after_n_grows (pt : PatternType3) (d h w : ℕ)
    (g : Grid3) (N : ℕ) :
    ((fun st => grow3 pt d h w 1 st)^[N] (seedState3 g)).history
      = (List.range (N + 1)).map (fun k => (step3 (patterns3 pt) d h w)^[k] g)
    ∧ ((fun st => grow3 pt d h w 1 st)^[N] (seedState3 g)).history.length = N + 1 := by
  have hfun : (fun st => grow3 pt d h w 1 st) = growOnce3 pt d h w :=
    funext fun st => rfl
  rw [hfun]
  refine ⟨(growOnce3_iterate pt d h w g N).2, ?_⟩
  rw [(growOnce3_iterate pt d h w g N).2, List.length_map, List.length_range]

/-- C5: for rules with no noise term the generation step is a
deterministic function of the current grid and the rule: the 2D coral and
lichen traces are independent of the per-generation noise source, and two
3D engines whose grids agree (whatever their histories) have equal grids
after the same number of generations with the same rule. -/
theorem c5_noiseless_rules_deterministic :
    (∀ (h w : ℕ) (g : Grid2) (u1 u2 : ℕ → ℕ → ℕ → ℚ) (n : ℕ),
      growTrace2 PatternType2.coral h w u1 g n = growTrace2 PatternType2.coral h w u2 g n)
    ∧ (∀ (h w : ℕ) (g : Grid2) (u1 u2 : ℕ → ℕ → ℕ → ℚ) (n : ℕ),
      growTrace2 PatternType2.lichen h w u1 g n = growTrace2 PatternType2.lichen h w u2 g n)
    ∧ (∀ (pt : PatternType3) (d h w : ℕ) (st1 st2 : State3) (n : ℕ),
      st1.grid = st2.grid →
      ((growOnce3 pt d h w)^[n] st1).grid = ((growOnce3 pt d h w)^[n] st2).grid) := by
  refine ⟨?_, ?_, ?_⟩
  · intro h w g u1 u2 n
    induction n with
    | zero => rfl
    | succ n ih =>
      show grow2 _ h w (u1 n) _ = grow2 _ h w (u2 n) _
      rw [grow2_coral, grow2_coral, ih]
  · intro h w g u1 u2 n
    induction n with
    | zero => rfl
    | succ n ih =>
      show grow2 _ h w (u1 n) _ = grow2 _ h w (u2 n) _
      rw [grow2_lichen, grow2_lichen, ih]
  · intro pt d h w st1 st2 n hg
    induction n with
    | zero => exact hg
    | succ n ih =>
      rw [Function.iterate_succ_apply', Function.iterate_succ_apply']
      show step3 (patterns3 pt) d h w _ = step3 (patterns3 pt) d h w _
      rw [ih]

lemma kernelSum3_sphere : kernelSum3 (rawKernel3 Shape3.sphere) = 6 := by
  norm_num [kernelSum3, offsets, rawKernel3]

lemma kernelSum3_diamond : kernelSum3 (rawKernel3 Shape3.diamond) = 6 := by
  norm_num [kernelSum3, offsets, rawKernel3]

lemma kernelSum3_cube : kernelSum3 (rawKernel3 Shape3.cube) = 26 := by
  norm_num [kernelSum3, offsets, rawKernel3]

lemma rawKernel3_nonneg (s : Shape3) (dz dy dx : ℤ) : 0 ≤ rawKernel3 s dz dy dx := by
  cases s <;> simp only [rawKernel3] <;> split_ifs <;> norm_num

lemma kernelSum3_raw_pos (s : Shape3) : 0 < kernelSum3 (rawKernel3 s) := by
  cases s <;>
    simp only [kernelSum3_sphere, kernelSum3_diamond, kernelSum3_cube] <;> norm_num

lemma create3dKernel_nonneg (s : Shape3) (dz dy dx : ℤ) :
    0 ≤ create3dKernel s dz dy dx :=
  div_nonneg (rawKernel3_nonneg s dz dy dx) (le_of_lt (kernelSum3_raw_pos s))

lemma create3dKernel_center (s : Shape3) : create3dKernel s 0 0 0 = 0 := by
  have hraw : rawKernel3 s 0 0 0 = 0 := by
    cases s <;> norm_num [rawKernel3]
  simp [create3dKernel, hraw]

/-- Counterexample for C2: the 2D coral kernel is not normalized — its
nine weights sum to 8, not 1. -/
theorem c2_counterexample_coral_kernel_sum :
    kernelSum2 (patterns2 PatternType2.coral).kernel = 8 ∧ (8 : ℚ) ≠ 1 := by
  constructor
  · norm_num [kernelSum2, offsets, patterns2, mooreKernel]
  · norm_num

/-- C2 as amended: every kernel (2D and 3D) has non-negative weights and
center weight exactly 0; the 3D kernels are normalized so their weights
sum to 1 (the neighbor field is a weighted fraction), but the 2D kernels
are unnormalized raw 0/1 masks — the Moore kernels of coral and mycelium
sum to 8 and the von Neumann kernel of lichen sums to 4, so the 2D
neighbor field is a raw integer count. -/
theorem c2_amended_kernel_invariants :
    (∀ (pt : PatternType2) (di dj : ℤ), 0 ≤ (patterns2 pt).kernel di dj)
    ∧ (∀ pt : PatternType2, (patterns2 pt).kernel 0 0 = 0)
    ∧ kernelSum2 (patterns2 PatternType2.coral).kernel = 8
    ∧ kernelSum2 (patterns2 PatternType2.lichen).kernel = 4
    ∧ kernelSum2 (patterns2 PatternType2.mycelium).kernel = 8
    ∧ (∀ (pt : PatternType3) (dz dy dx : ℤ), 0 ≤ (patterns3 pt).kernel dz dy dx)
    ∧ (∀ pt : PatternType3, (patterns3 pt).kernel 0 0 0 = 0)
    ∧ (∀ pt : PatternType3, kernelSum3 (patterns3 pt).kernel = 1) := by
  refine ⟨?_, ?_, ?_, ?_, ?_, ?_, ?_, ?_⟩
  · intro pt di dj
    cases pt <;> simp only [patterns2, mooreKernel, vonNeumannKernel] <;>
      split_ifs <;> norm_num
  · intro pt
    cases pt <;> norm_num [patterns2, mooreKernel, vonNeumannKernel]
  · norm_num [kernelSum2, offsets, patterns2, mooreKernel]
  · norm_num [kernelSum2, offsets, patterns2, vonNeumannKernel]
  · norm_num [kernelSum2, offsets, patterns2, mooreKernel]
  · intro pt dz dy dx
    cases pt <;> exact create3dKernel_nonneg _ dz dy dx
  · intro pt
    cases pt <;> exact create3dKernel_center _
  · intro pt
    cases pt <;> simp only [patterns3] <;>
      · have hker : ∀ s : Shape3, ∀ c : ℚ, kernelSum3 (rawKernel3 s) = c →
          create3dKernel s = fun dz dy dx => rawKernel3 s dz dy dx / c := by
          intro s c hc
          funext dz dy dx
          simp [create3dKernel, hc]
        first
        | rw [hker Shape3.sphere 6 kernelSum3_sphere]
          norm_num [kernelSum3, offsets, rawKernel3]
        | rw [hker Shape3.diamond 6 kernelSum3_diamond]
          norm_num [kernelSum3, offsets, rawKernel3]
        | rw [hker Shape3.cube 26 kernelSum3_cube]
          norm_num [kernelSum3, offsets, rawKernel3]

/-- C9: `seed_random` fails with an `InvalidParameter` error at the call
for every density outside `[0, 1]` (in both engines), and for density
inside `[0, 1]` it succeeds with a grid whose values all lie in
`{0, 1}`. -/
theorem c9_seed_random_density_domain :
    (∀ (density : ℚ) (u : ℕ → ℕ → ℚ), density < 0 ∨ 1 < density →
      seed_random2 density u = Except.error EngineError.InvalidParameter)
    ∧ (∀ (density : ℚ) (u : ℕ → ℕ → ℚ), 0 ≤ density → density ≤ 1 →
      seed_random2 density u
        = Except.ok (fun i j => if u i j < 1 - density then 0 else 1)
      ∧ ∀ i j : ℕ, (if u i j < 1 - density then (0 : ℚ) else 1) = 0
          ∨ (if u i j < 1 - density then (0 : ℚ) else 1) = 1)
    ∧ (∀ (density : ℚ) (u : ℕ → ℕ → ℕ → ℚ), density < 0 ∨ 1 < density →
      seed_random3 density u = Except.error EngineError.InvalidParameter)
    ∧ (∀ (density : ℚ) (u : ℕ → ℕ → ℕ → ℚ), 0 ≤ density → density ≤ 1 →
      seed_random3 density u
        = Except.ok (fun z y x => if u z y x < 1 - density then 0 else 1)
      ∧ ∀ z y x : ℕ, (if u z y x < 1 - density then (0 : ℚ) else 1) = 0
          ∨ (if u z y x < 1 - density then (0 : ℚ) else 1) = 1) := by
  refine ⟨?_, ?_, ?_, ?_⟩
  · intro density u hd
    rw [seed_random2, if_neg]
    rintro ⟨h1, h2⟩
    rcases hd with hd | hd <;> linarith
  · intro density u h0 h1
    refine ⟨by rw [seed_random2, if_pos ⟨by linarith, h0⟩], ?_⟩
    intro i j
    by_cases hc : u i j < 1 - density
    · exact Or.inl (if_pos hc)
    · exact Or.inr (if_neg hc)
  · intro density u hd
    rw [seed_random3, if_neg]
    rintro ⟨h1, h2⟩
    rcases hd with hd | hd <;> linarith
  · intro density u h0 h1
    refine ⟨by rw [seed_random3, if_pos ⟨by linarith, h0⟩], ?_⟩
    intro z y x
    by_cases hc : u z y x < 1 - density
    · exact Or.inl (if_pos hc)
    · exact Or.inr (if_neg hc)

/-- Witness for C9: density 2 is rejected with `InvalidParameter`, and
density 1/2 succeeds. -/
theorem c9_seed_random_density_domain_witness :
    seed_random2 2 (fun _ _ => 1 / 2) = Except.error EngineError.InvalidParameter
    ∧ seed_random2 (1 / 2) (fun _ _ => 1 / 4)
      = Except.ok (fun i j => if (1 / 4 : ℚ) < 1 - 1 / 2 then 0 else 1) :=
  ⟨c9_seed_random_density_domain.1 2 (fun _ _ => 1 / 2) (Or.inr (by norm_num)),
   (c9_seed_random_density_domain.2.1 (1 / 2) (fun _ _ => 1 / 4)
      (by norm_num) (by norm_num)).1⟩

lemma moistureGradient_le_one {h i : ℕ} (hi : i < h) : moistureGradient h i ≤ 1 := by
  by_cases h1 : h = 1
  · simp only [moistureGradient, linspace, if_pos h1]
    norm_num
  · have h2 : 2 ≤ h := by omega
    have hnat : i + 1 ≤ h := hi
    have hc : (i : ℚ) + 1 ≤ (h : ℚ) := by exact_mod_cast hnat
    have hpos : (0 : ℚ) < (h : ℚ) - 1 := by
      have : (2 : ℚ) ≤ (h : ℚ) := by exact_mod_cast h2
      linarith
    simp only [moistureGradient, linspace, if_neg h1]
    have hterm : (1 - 1 / 2 : ℚ) * (i : ℚ) / ((h : ℚ) - 1) ≤ 1 / 2 := by
      rw [div_le_iff hpos]
      linarith
    linarith

lemma moistureGradient_ge_half {h i : ℕ} (hi : i < h) : 1 / 2 ≤ moistureGradient h i := by
  by_cases h1 : h = 1
  · simp only [moistureGradient, linspace, if_pos h1]
    norm_num
  · have h2 : 2 ≤ h := by omega
    have hpos : (0 : ℚ) < (h : ℚ) - 1 := by
      have : (2 : ℚ) ≤ (h : ℚ) := by exact_mod_cast h2
      linarith
    have hterm : 0 ≤ (1 - 1 / 2 : ℚ) * (i : ℚ) / ((h : ℚ) - 1) :=
      div_nonneg (mul_nonneg (by norm_num) (Nat.cast_nonneg i)) (le_of_lt hpos)
    simp only [moistureGradient, linspace, if_neg h1]
    linarith

lemma lightGradient_le_one (h w i j : ℕ) : lightGradient h w i j ≤ 1 :=
  min_le_right _ _

lemma lightGradient_ge (h w i j : ℕ) : 3 / 10 ≤ lightGradient h w i j :=
  le_min (le_max_right _ _) (by norm_num)

lemma envGradient_le_one (factor : EnvFactor) (h w i j : ℕ) (hi : i < h) :
    envGradient factor h w i j ≤ 1 := by
  cases factor
  · exact moistureGradient_le_one hi
  · exact lightGradient_le_one h w i j

lemma envGradient_pos (factor : EnvFactor) (h w i j : ℕ) (hi : i < h) :
    0 < envGradient factor h w i j := by
  cases factor
  · exact lt_of_lt_of_le (by norm_num) (moistureGradient_ge_half hi)
  · exact lt_of_lt_of_le (by norm_num) (lightGradient_ge h w i j)

/-- C8: environment modulation only attenuates: for every cell with a
non-negative value, the value after `add_environment` is at most the value
before, and the multiplicative field is a deterministic function of the
grid shape and the factor kind alone. -/
theorem c8_environment_only_attenuates (factor : EnvFactor) (h w : ℕ) (g : Grid2)
    (i j : ℕ) (hi : i < h) (hg : 0 ≤ g i j) :
    add_environment factor h w g i j ≤ g i j
    ∧ add_environment factor h w g i j = g i j * envGradient factor h w i j :=
  ⟨mul_le_of_le_one_right hg (envGradient_le_one factor h w i j hi), rfl⟩

/-- Witness for C8: on a 2×2 all-ones grid the moisture modulation does
not increase the cell at row 1, column 0. -/
theorem c8_environment_only_attenuates_witness :
    (1 : ℕ) < 2 ∧ (0 : ℚ) ≤ 1
    ∧ add_environment EnvFactor.moisture 2 2 (fun _ _ => 1) 1 0 ≤ 1 :=
  ⟨by norm_num, by norm_num,
   (c8_environment_only_attenuates EnvFactor.moisture 2 2 (fun _ _ => 1) 1 0
      (by norm_num) (by norm_num)).1⟩

/-- C10: environment modulation preserves the set of active cells — a cell
is strictly positive after `add_environment` exactly when it was before,
because the moisture gradient lies in `[1/2, 1]` and the clipped light
gradient lies in `[3/10, 1]`, hence every multiplicative factor is
strictly positive; consequently the polled active-cell count is unchanged
by modulation. -/
theorem c10_environment_preserves_active_cells (factor : EnvFactor) (h w : ℕ)
    (g : Grid2) :
    (∀ i j : ℕ, i < h → (0 < add_environment factor h w g i j ↔ 0 < g i j))
    ∧ activeCells h w (add_environment factor h w g) = activeCells h w g
    ∧ (∀ i : ℕ, i < h → 1 / 2 ≤ moistureGradient h i ∧ moistureGradient h i ≤ 1)
    ∧ (∀ i j : ℕ, 3 / 10 ≤ lightGradient h w i j ∧ lightGradient h w i j ≤ 1) := by
  have key : ∀ i j : ℕ, i < h → (0 < add_environment factor h w g i j ↔ 0 < g i j) := by
    intro i j hi
    have hf : 0 < envGradient factor h w i j := envGradient_pos factor h w i j hi
    constructor
    · intro hpos
      by_contra hng
      push_neg at hng
      have hle : g i j * envGradient factor h w i j ≤ 0 * envGradient factor h w i j :=
        mul_le_mul_of_nonneg_right hng (le_of_lt hf)
      rw [zero_mul] at hle
      exact absurd hpos (not_lt.mpr hle)
    · intro hpos
      exact mul_pos hpos hf
  refine ⟨key, ?_,
    fun i hi => ⟨moistureGradient_ge_half hi, moistureGradient_le_one hi⟩,
    fun i j => ⟨lightGradient_ge h w i j, lightGradient_le_one h w i j⟩⟩
  unfold activeCells
  congr 1
  apply Finset.filter_congr
  intro p hp
  rw [Finset.mem_product, Finset.mem_range, Finset.mem_range] at hp
  exact key p.1 p.2 hp.1

/-- Witness for C10: on a 2×3 all-ones grid the light modulation keeps the
cell at row 1, column 2 active. -/
theorem c10_environment_preserves_active_cells_witness :
    0 < add_environment EnvFactor.light 2 3 (fun _ _ => 1) 1 2 ↔ 0 < (1 : ℚ) :=
  (c10_environment_preserves_active_cells EnvFactor.light 2 3 (fun _ _ => 1)).1
    1 2 (by norm_num)

lemma wrapIdx_lt {n : ℕ} (hn : 0 < n) (i : ℤ) : wrapIdx n i < n := by
  have h0 : (0 : ℤ) < (n : ℤ) := by exact_mod_cast hn
  have h1 : i % (n : ℤ) < (n : ℤ) := Int.emod_lt_of_pos i h0
  have h2 : 0 ≤ i % (n : ℤ) := Int.emod_nonneg i (by omega)
  simp only [wrapIdx]
  omega

lemma wrapIdx_coe {n r : ℕ} (h : r < n) : wrapIdx n (r : ℤ) = r := by
  simp only [wrapIdx]
  rw [Int.emod_eq_of_lt (by positivity) (by exact_mod_cast h)]
  simp

lemma wrapIdx_neg_one {n : ℕ} (hn : 2 ≤ n) : wrapIdx n (-1) = n - 1 := by
  have h2 : (2 : ℤ) ≤ (n : ℤ) := by exact_mod_cast hn
  have h1 : ((-1 : ℤ) + (n : ℤ) * 1) % (n : ℤ) = (-1 : ℤ) % (n : ℤ) :=
    Int.add_mul_emod_self_left (-1) (n : ℤ) 1
  have h3 : ((n : ℤ) - 1) % (n : ℤ) = (n : ℤ) - 1 :=
    Int.emod_eq_of_lt (by omega) (by omega)
  have h4 : (-1 : ℤ) % (n : ℤ) = (n : ℤ) - 1 := by
    rw [← h1, show (-1 : ℤ) + (n : ℤ) * 1 = (n : ℤ) - 1 by ring, h3]
  simp only [wrapIdx, h4]
  omega

lemma wrapIdx_sub_one_ne {n r : ℕ} (hn : 2 ≤ n) (hr : r < n) :
    wrapIdx n ((r : ℤ) + (-1)) ≠ r := by
  rcases Nat.eq_zero_or_pos r with h0 | h0
  · subst h0
    rw [show ((0 : ℕ) : ℤ) + (-1) = (-1 : ℤ) by norm_num, wrapIdx_neg_one hn]
    omega
  · rw [show ((r : ℤ) + (-1)) = ((r - 1 : ℕ) : ℤ) by omega, wrapIdx_coe (by omega)]
    omega

lemma wrapIdx_add_one_ne {n r : ℕ} (hn : 2 ≤ n) (hr : r < n) :
    wrapIdx n ((r : ℤ) + 1) ≠ r := by
  rcases Nat.lt_or_ge (r + 1) n with hlt | hge
  · rw [show ((r : ℤ) + 1) = ((r + 1 : ℕ) : ℤ) by push_cast; ring, wrapIdx_coe hlt]
    omega
  · have heq : r + 1 = n := by omega
    rw [show ((r : ℤ) + 1) = (n : ℤ) by omega]
    simp only [wrapIdx, Int.emod_self]
    omega

lemma wrapIdx_edge_sub_one {n : ℕ} (hn : 3 ≤ n) :
    wrapIdx n (((n - 1 : ℕ) : ℤ) + (-1)) = n - 2 := by
  rw [show (((n - 1 : ℕ) : ℤ) + (-1)) = ((n - 2 : ℕ) : ℤ) by omega]
  exact wrapIdx_coe (by omega)

lemma wrapIdx_edge_zero {n : ℕ} (hn : 1 ≤ n) :
    wrapIdx n (((n - 1 : ℕ) : ℤ) + 0) = n - 1 := by
  rw [add_zero]
  exact wrapIdx_coe (by omega)

lemma wrapIdx_edge_add_one {n : ℕ} (hn : 1 ≤ n) :
    wrapIdx n (((n - 1 : ℕ) : ℤ) + 1) = 0 := by
  rw [show (((n - 1 : ℕ) : ℤ) + 1) = (n : ℤ) by omega]
  simp [wrapIdx, Int.emod_self]

lemma wrapIdx_zero_sub_one {n : ℕ} (hn : 2 ≤ n) :
    wrapIdx n (((0 : ℕ) : ℤ) + (-1)) = n - 1 := by
  rw [show (((0 : ℕ) : ℤ) + (-1)) = (-1 : ℤ) by norm_num]
  exact wrapIdx_neg_one hn

lemma wrapIdx_zero_zero {n : ℕ} (hn : 1 ≤ n) :
    wrapIdx n (((0 : ℕ) : ℤ) + 0) = 0 := by
  rw [add_zero]
  exact wrapIdx_coe (by omega)

lemma wrapIdx_zero_add_one {n : ℕ} (hn : 2 ≤ n) :
    wrapIdx n (((0 : ℕ) : ℤ) + 1) = 1 := by
  rw [show (((0 : ℕ) : ℤ) + 1) = ((1 : ℕ) : ℤ) by norm_num]
  exact wrapIdx_coe (by omega)

/-- C3: neighbor counting is periodic (toroidal) in both engines and along
every axis: for every grid and every kernel, the cell at coordinate 0
along an axis contributes to the neighbor field of the cell at coordinate
extent − 1 along that axis with the kernel weight of the adjacent offset,
and vice versa — stated for the 2D column and row axes and for all three
3D axes — and wrapped neighbor lookups always land strictly inside the
grid extents. -/
theorem c3_periodic_boundary_wrap (K : ℤ → ℤ → ℚ) (h w : ℕ) (g : Grid2)
    (r c : ℕ) (K3 : ℤ → ℤ → ℤ → ℚ) (d3 h3 w3 : ℕ) (G : Grid3) (z0 y0 x0 : ℕ)
    (hh : 3 ≤ h) (hw : 3 ≤ w) (hr : r < h) (hc : c < w)
    (hd3 : 3 ≤ d3) (hh3 : 3 ≤ h3) (hw3 : 3 ≤ w3)
    (hz0 : z0 < d3) (hy0 : y0 < h3) (hx0 : x0 < w3) :
    neighborField2 K h w g r (w - 1)
      = neighborField2 K h w (clearCell g r 0) r (w - 1) + K 0 1 * g r 0
    ∧ neighborField2 K h w g r 0
      = neighborField2 K h w (clearCell g r (w - 1)) r 0 + K 0 (-1) * g r (w - 1)
    ∧ neighborField2 K h w g (h - 1) c
      = neighborField2 K h w (clearCell g 0 c) (h - 1) c + K 1 0 * g 0 c
    ∧ neighborField2 K h w g 0 c
      = neighborField2 K h w (clearCell g (h - 1) c) 0 c + K (-1) 0 * g (h - 1) c
    ∧ neighborField3 K3 d3 h3 w3 G z0 y0 (w3 - 1)
      = neighborField3 K3 d3 h3 w3 (clearCell3 G z0 y0 0) z0 y0 (w3 - 1)
        + K3 0 0 1 * G z0 y0 0
    ∧ neighborField3 K3 d3 h3 w3 G z0 y0 0
      = neighborField3 K3 d3 h3 w3 (clearCell3 G z0 y0 (w3 - 1)) z0 y0 0
        + K3 0 0 (-1) * G z0 y0 (w3 - 1)
    ∧ neighborField3 K3 d3 h3 w3 G z0 (h3 - 1) x0
      = neighborField3 K3 d3 h3 w3 (clearCell3 G z0 0 x0) z0 (h3 - 1) x0
        + K3 0 1 0 * G z0 0 x0
    ∧ neighborField3 K3 d3 h3 w3 G z0 0 x0
      = neighborField3 K3 d3 h3 w3 (clearCell3 G z0 (h3 - 1) x0) z0 0 x0
        + K3 0 (-1) 0 * G z0 (h3 - 1) x0
    ∧ neighborField3 K3 d3 h3 w3 G (d3 - 1) y0 x0
      = neighborField3 K3 d3 h3 w3 (clearCell3 G 0 y0 x0) (d3 - 1) y0 x0
        + K3 1 0 0 * G 0 y0 x0
    ∧ neighborField3 K3 d3 h3 w3 G 0 y0 x0
      = neighborField3 K3 d3 h3 w3 (clearCell3 G (d3 - 1) y0 x0) 0 y0 x0
        + K3 (-1) 0 0 * G (d3 - 1) y0 x0
    ∧ ∀ (n : ℕ) (i : ℤ), 0 < n → wrapIdx n i < n := by
  have hA1 : wrapIdx h ((r : ℤ) + (-1)) ≠ r := wrapIdx_sub_one_ne (by omega) hr
  have hA2 : wrapIdx h ((r : ℤ) + 0) = r := by
    rw [add_zero]
    exact wrapIdx_coe hr
  have hA3 : wrapIdx h ((r : ℤ) + 1) ≠ r := wrapIdx_add_one_ne (by omega) hr
  have hCo1 : wrapIdx w ((c : ℤ) + (-1)) ≠ c := wrapIdx_sub_one_ne (by omega) hc
  have hCo2 : wrapIdx w ((c : ℤ) + 0) = c := by
    rw [add_zero]
    exact wrapIdx_coe hc
  have hCo3 : wrapIdx w ((c : ℤ) + 1) ≠ c := wrapIdx_add_one_ne (by omega) hc
  have hZ1 : wrapIdx d3 ((z0 : ℤ) + (-1)) ≠ z0 := wrapIdx_sub_one_ne (by omega) hz0
  have hZ2 : wrapIdx d3 ((z0 : ℤ) + 0) = z0 := by
    rw [add_zero]
    exact wrapIdx_coe hz0
  have hZ3 : wrapIdx d3 ((z0 : ℤ) + 1) ≠ z0 := wrapIdx_add_one_ne (by omega) hz0
  have hY1 : wrapIdx h3 ((y0 : ℤ) + (-1)) ≠ y0 := wrapIdx_sub_one_ne (by omega) hy0
  have hY2 : wrapIdx h3 ((y0 : ℤ) + 0) = y0 := by
    rw [add_zero]
    exact wrapIdx_coe hy0
  have hY3 : wrapIdx h3 ((y0 : ℤ) + 1) ≠ y0 := wrapIdx_add_one_ne (by omega) hy0
  have hX1 : wrapIdx w3 ((x0 : ℤ) + (-1)) ≠ x0 := wrapIdx_sub_one_ne (by omega) hx0
  have hX2 : wrapIdx w3 ((x0 : ℤ) + 0) = x0 := by
    rw [add_zero]
    exact wrapIdx_coe hx0
  have hX3 : wrapIdx w3 ((x0 : ℤ) + 1) ≠ x0 := wrapIdx_add_one_ne (by omega) hx0
  refine ⟨?_, ?_, ?_, ?_, ?_, ?_, ?_, ?_, ?_, ?_, fun n i hn => wrapIdx_lt hn i⟩
  · -- 2D column axis: cell (r, 0) contributes to the field at (r, w - 1)
    have hB1 : wrapIdx w (((w - 1 : ℕ) : ℤ) + (-1)) = w - 2 := wrapIdx_edge_sub_one hw
    have hB2 : wrapIdx w (((w - 1 : ℕ) : ℤ) + 0) = w - 1 := wrapIdx_edge_zero (by omega)
    have hB3 : wrapIdx w (((w - 1 : ℕ) : ℤ) + 1) = 0 := wrapIdx_edge_add_one (by omega)
    have hb1 : ¬(w - 2 = 0) := by omega
    have hb2 : ¬(w - 1 = 0) := by omega
    simp only [neighborField2, offsets, List.map_cons, List.map_nil, List.sum_cons,
      List.sum_nil, hA2, hB1, hB2, hB3]
    simp only [clearCell, hA1, hA3, hb1, hb2, eq_self_iff_true, true_and, and_true,
      false_and, and_false, ite_true, ite_false, if_true, if_false]
    ring
  · -- 2D column axis, vice versa: cell (r, w - 1) contributes at (r, 0)
    have hC1 : wrapIdx w (((0 : ℕ) : ℤ) + (-1)) = w - 1 := wrapIdx_zero_sub_one (by omega)
    have hC2 : wrapIdx w (((0 : ℕ) : ℤ) + 0) = 0 := wrapIdx_zero_zero (by omega)
    have hC3 : wrapIdx w (((0 : ℕ) : ℤ) + 1) = 1 := wrapIdx_zero_add_one (by omega)
    have hc2 : ¬((0 : ℕ) = w - 1) := by omega
    have hc3 : ¬((1 : ℕ) = w - 1) := by omega
    simp only [neighborField2, offsets, List.map_cons, List.map_nil, List.sum_cons,
      List.sum_nil, hA2, hC1, hC2, hC3]
    simp only [clearCell, hA1, hA3, hc2, hc3, eq_self_iff_true, true_and, and_true,
      false_and, and_false, ite_true, ite_false, if_true, if_false]
    ring
  · -- 2D row axis: cell (0, c) contributes to the field at (h - 1, c)
    have hR1 : wrapIdx h (((h - 1 : ℕ) : ℤ) + (-1)) = h - 2 := wrapIdx_edge_sub_one hh
    have hR2 : wrapIdx h (((h - 1 : ℕ) : ℤ) + 0) = h - 1 := wrapIdx_edge_zero (by omega)
    have hR3 : wrapIdx h (((h - 1 : ℕ) : ℤ) + 1) = 0 := wrapIdx_edge_add_one (by omega)
    have hr1 : ¬(h - 2 = 0) := by omega
    have hr2 : ¬(h - 1 = 0) := by omega
    simp only [neighborField2, offsets, List.map_cons, List.map_nil, List.sum_cons,
      List.sum_nil, hR1, hR2, hR3, hCo2]
    simp only [clearCell, hCo1, hCo3, hr1, hr2, eq_self_iff_true, true_and, and_true,
      false_and, and_false, ite_true, ite_false, if_true, if_false]
    ring
  · -- 2D row axis, vice versa: cell (h - 1, c) contributes at (0, c)
    have hD1 : wrapIdx h (((0 : ℕ) : ℤ) + (-1)) = h - 1 := wrapIdx_zero_sub_one (by omega)
    have hD2 : wrapIdx h (((0 : ℕ) : ℤ) + 0) = 0 := wrapIdx_zero_zero (by omega)
    have hD3 : wrapIdx h (((0 : ℕ) : ℤ) + 1) = 1 := wrapIdx_zero_add_one (by omega)
    have hd1 : ¬((0 : ℕ) = h - 1) := by omega
    have hd2 : ¬((1 : ℕ) = h - 1) := by omega
    simp only [neighborField2, offsets, List.map_cons, List.map_nil, List.sum_cons,
      List.sum_nil, hD1, hD2, hD3, hCo2]
    simp only [clearCell, hCo1, hCo3, hd1, hd2, eq_self_iff_true, true_and, and_true,
      false_and, and_false, ite_true, ite_false, if_true, if_false]
    ring
  · -- 3D x axis: cell (z0, y0, 0) contributes to the field at (z0, y0, w3 - 1)
    have hB1 : wrapIdx w3 (((w3 - 1 : ℕ) : ℤ) + (-1)) = w3 - 2 := wrapIdx_edge_sub_one hw3
    have hB2 : wrapIdx w3 (((w3 - 1 : ℕ) : ℤ) + 0) = w3 - 1 := wrapIdx_edge_zero (by omega)
    have hB3 : wrapIdx w3 (((w3 - 1 : ℕ) : ℤ) + 1) = 0 := wrapIdx_edge_add_one (by omega)
    have hb1 : ¬(w3 - 2 = 0) := by omega
    have hb2 : ¬(w3 - 1 = 0) := by omega
    simp only [neighborField3, offsets, List.map_cons, List.map_nil, List.sum_cons,
      List.sum_nil, hZ2, hY2, hB1, hB2, hB3]
    simp only [clearCell3, hZ1, hZ3, hY1, hY3, hb1, hb2, eq_self_iff_true, true_and,
      and_true, false_and, and_false, ite_true, ite_false, if_true, if_false]
    ring
  · -- 3D x axis, vice versa
    have hC1 : wrapIdx w3 (((0 : ℕ) : ℤ) + (-1)) = w3 - 1 := wrapIdx_zero_sub_one (by omega)
    have hC2 : wrapIdx w3 (((0 : ℕ) : ℤ) + 0) = 0 := wrapIdx_zero_zero (by omega)
    have hC3 : wrapIdx w3 (((0 : ℕ) : ℤ) + 1) = 1 := wrapIdx_zero_add_one (by omega)
    have hc2 : ¬((0 : ℕ) = w3 - 1) := by omega
    have hc3 : ¬((1 : ℕ) = w3 - 1) := by omega
    simp only [neighborField3, offsets, List.map_cons, List.map_nil, List.sum_cons,
      List.sum_nil, hZ2, hY2, hC1, hC2, hC3]
    simp only [clearCell3, hZ1, hZ3, hY1, hY3, hc2, hc3, eq_self_iff_true, true_and,
      and_true, false_and, and_false, ite_true, ite_false, if_true, if_false]
    ring
  · -- 3D y axis: cell (z0, 0, x0) contributes to the field at (z0, h3 - 1, x0)
    have hB1 : wrapIdx h3 (((h3 - 1 : ℕ) : ℤ) + (-1)) = h3 - 2 := wrapIdx_edge_sub_one hh3
    have hB2 : wrapIdx h3 (((h3 - 1 : ℕ) : ℤ) + 0) = h3 - 1 := wrapIdx_edge_zero (by omega)
    have hB3 : wrapIdx h3 (((h3 - 1 : ℕ) : ℤ) + 1) = 0 := wrapIdx_edge_add_one (by omega)
    have hb1 : ¬(h3 - 2 = 0) := by omega
    have hb2 : ¬(h3 - 1 = 0) := by omega
    simp only [neighborField3, offsets, List.map_cons, List.map_nil, List.sum_cons,
      List.sum_nil, hZ2, hX2, hB1, hB2, hB3]
    simp only [clearCell3, hZ1, hZ3, hX1, hX3, hb1, hb2, eq_self_iff_true, true_and,
      and_true, false_and, and_false, ite_true, ite_false, if_true, if_false]
    ring
  · -- 3D y axis, vice versa
    have hC1 : wrapIdx h3 (((0 : ℕ) : ℤ) + (-1)) = h3 - 1 := wrapIdx_zero_sub_one (by omega)
    have hC2 : wrapIdx h3 (((0 : ℕ) : ℤ) + 0) = 0 := wrapIdx_zero_zero (by omega)
    have hC3 : wrapIdx h3 (((0 : ℕ) : ℤ) + 1) = 1 := wrapIdx_zero_add_one (by omega)
    have hc2 : ¬((0 : ℕ) = h3 - 1) := by omega
    have hc3 : ¬((1 : ℕ) = h3 - 1) := by omega
    simp only [neighborField3, offsets, List.map_cons, List.map_nil, List.sum_cons,
      List.sum_nil, hZ2, hX2, hC1, hC2, hC3]
    simp only [clearCell3, hZ1, hZ3, hX1, hX3, hc2, hc3, eq_self_iff_true, true_and,
      and_true, false_and, and_false, ite_true, ite_false, if_true, if_false]
    ring
  · -- 3D z axis: cell (0, y0, x0) contributes to the field at (d3 - 1, y0, x0)
    have hB1 : wrapIdx d3 (((d3 - 1 : ℕ) : ℤ) + (-1)) = d3 - 2 := wrapIdx_edge_sub_one hd3
    have hB2 : wrapIdx d3 (((d3 - 1 : ℕ) : ℤ) + 0) = d3 - 1 := wrapIdx_edge_zero (by omega)
    have hB3 : wrapIdx d3 (((d3 - 1 : ℕ) : ℤ) + 1) = 0 := wrapIdx_edge_add_one (by omega)
    have hb1 : ¬(d3 - 2 = 0) := by omega
    have hb2 : ¬(d3 - 1 = 0) := by omega
    simp only [neighborField3, offsets, List.map_cons, List.map_nil, List.sum_cons,
      List.sum_nil, hY2, hX2, hB1, hB2, hB3]
    simp only [clearCell3, hY1, hY3, hX1, hX3, hb1, hb2, eq_self_iff_true, true_and,
      and_true, false_and, and_false, ite_true, ite_false, if_true, if_false]
    ring
  · -- 3D z axis, vice versa
    have hC1 : wrapIdx d3 (((0 : ℕ) : ℤ) + (-1)) = d3 - 1 := wrapIdx_zero_sub_one (by omega)
    have hC2 : wrapIdx d3 (((0 : ℕ) : ℤ) + 0) = 0 := wrapIdx_zero_zero (by omega)
    have hC3 : wrapIdx d3 (((0 : ℕ) : ℤ) + 1) = 1 := wrapIdx_zero_add_one (by omega)
    have hc2 : ¬((0 : ℕ) = d3 - 1) := by omega
    have hc3 : ¬((1 : ℕ) = d3 - 1) := by omega
    simp only [neighborField3, offsets, List.map_cons, List.map_nil, List.sum_cons,
      List.sum_nil, hY2, hX2, hC1, hC2, hC3]
    simp only [clearCell3, hY1, hY3, hX1, hX3, hc2, hc3, eq_self_iff_true, true_and,
      and_true, false_and, and_false, ite_true, ite_false, if_true, if_false]
    ring

/-- Witness for C3: concrete 3 × 3 all-ones 2D grid and 3 × 3 × 3 all-ones
3D grid with the Moore and normalized cube kernels. -/
theorem c3_periodic_boundary_wrap_witness :
    (3 : ℕ) ≤ 3 ∧ (1 : ℕ) < 3
    ∧ neighborField2 mooreKernel 3 3 (fun _ _ => 1) 1 2
      = neighborField2 mooreKernel 3 3 (clearCell (fun _ _ => 1) 1 0) 1 2
        + mooreKernel 0 1 * 1
    ∧ neighborField3 (create3dKernel Shape3.cube) 3 3 3 (fun _ _ _ => 1) 2 1 1
      = neighborField3 (create3dKernel Shape3.cube) 3 3 3
          (clearCell3 (fun _ _ _ => 1) 0 1 1) 2 1 1
        + create3dKernel Shape3.cube 1 0 0 * 1 := by
  have hmain := c3_periodic_boundary_wrap mooreKernel 3 3 (fun _ _ => 1) 1 1
    (create3dKernel Shape3.cube) 3 3 3 (fun _ _ _ => 1) 1 1 1
    (by norm_num) (by norm_num) (by norm_num) (by norm_num) (by norm_num)
    (by norm_num) (by norm_num) (by norm_num) (by norm_num) (by norm_num)
  exact ⟨by norm_num, by norm_num, hmain.1, hmain.2.2.2.2.2.2.2.2.1⟩

/-- Counterexample for C4: the 3D engine applies no noise for any rule —
one mycelium grow of the all-zero 3×3×3 grid leaves the center cell at
exactly 0, and the whole next grid is exactly the binary survive/birth
mask output, with no per-cell perturbation. -/
theorem c4_counterexample_no_3d_mycelium_noise :
    (grow3 PatternType3.mycelium 3 3 3 1 (seedState3 (fun _ _ _ => 0))).grid 1 1 1 = 0
    ∧ ∀ z y x : ℕ,
      (grow3 PatternType3.mycelium 3 3 3 1 (seedState3 (fun _ _ _ => 0))).grid z y x
        = step3 (patterns3 PatternType3.mycelium) 3 3 3 (fun _ _ _ => 0) z y x := by
  constructor
  · show step3 (patterns3 PatternType3.mycelium) 3 3 3 (fun _ _ _ => 0) 1 1 1 = 0
    have hnf : neighborField3 (create3dKernel Shape3.diamond) 3 3 3
        (fun _ _ _ => 0) 1 1 1 = 0 := by
      simp [neighborField3, offsets]
    norm_num [step3, patterns3, hnf]
  · intro z y x
    rfl

/-- C4 as amended: in the 2D engine the mycelium rule (and only the
mycelium rule) adds per-cell noise `u i j * 0.1` to the next grid and
clips the result into `[0, 1]` (so its cells always land in `[0, 1]`);
the coral and lichen grows are exactly the noiseless mask step; and the
3D engine applies no noise for any rule — its one-generation grow is
exactly the mask step. -/
theorem c4_amended_noise_only_2d_mycelium :
    (∀ (h w : ℕ) (u : ℕ → ℕ → ℚ) (g : Grid2) (i j : ℕ),
      grow2 PatternType2.mycelium h w u g i j
        = npClip (step2 (patterns2 PatternType2.mycelium) h w g i j + u i j * (1 / 10)) 0 1)
    ∧ (∀ (h w : ℕ) (u : ℕ → ℕ → ℚ) (g : Grid2),
      grow2 PatternType2.coral h w u g = step2 (patterns2 PatternType2.coral) h w g)
    ∧ (∀ (h w : ℕ) (u : ℕ → ℕ → ℚ) (g : Grid2),
      grow2 PatternType2.lichen h w u g = step2 (patterns2 PatternType2.lichen) h w g)
    ∧ (∀ (h w : ℕ) (u : ℕ → ℕ → ℚ) (g : Grid2) (i j : ℕ),
      0 ≤ grow2 PatternType2.mycelium h w u g i j
        ∧ grow2 PatternType2.mycelium h w u g i j ≤ 1)
    ∧ (∀ (pt : PatternType3) (d h w : ℕ) (st : State3),
      (grow3 pt d h w 1 st).grid = step3 (patterns3 pt) d h w st.grid) := by
  refine ⟨fun h w u g i j => rfl, grow2_coral, grow2_lichen, ?_,
    fun pt d h w st => rfl⟩
  intro h w u g i j
  exact ⟨le_min (le_max_right _ _) (by norm_num), min_le_right _ _⟩

/-- Witness for C5: two 3D crystal engines sharing the all-zero grid but
with different histories have equal grids after two generations. -/
theorem c5_noiseless_rules_deterministic_witness :
    ((growOnce3 PatternType3.crystal 2 2 2)^[2]
        ⟨fun _ _ _ => 0, []⟩).grid
      = ((growOnce3 PatternType3.crystal 2 2 2)^[2]
        ⟨fun _ _ _ => 0, [fun _ _ _ => 0]⟩).grid :=
  c5_noiseless_rules_deterministic.2.2 PatternType3.crystal 2 2 2
    ⟨fun _ _ _ => 0, []⟩ ⟨fun _ _ _ => 0, [fun _ _ _ => 0]⟩ 2 rfl
